import Mathlib

/-!
Verification of the Activity Feed Model & Interaction Protocol of
`packages/app-features/contacts/components/activity-timeline/activity-timeline.tsx`.

The embedding translates the component tree into pure functions on an
explicit data model.  JavaScript `undefined` is modelled by `Option`,
a JavaScript runtime error (reading a property of `undefined`, or
referencing an undeclared identifier) by `Except String`.

The model has two stages, mirroring React.  Creating an element
(`React.createElement`, i.e. a JSX expression in a parent) does not run
the child component's function; `ActivityTimeline` and `dispatch` model
this element-list stage, with `RenderedItem`/`CommentItem` recording the
attributes and content the child's JSX describes.  Invoking a renderer's
body is the second stage, modelled by the `evalActivityTimeline...`
functions: there the `users`/`user` destructuring slip of the source
makes the action and comment renderers throw while evaluating their own
props, so they produce no element at all, while the update renderer
returns its element and only its text child fails.

Presentational collaborators that the specification excludes as
external (cards, icons, tooltips, relative-time formatting) are opaque,
but the expressions the source feeds them are evaluated, since that is
where the renderers throw.
-/

namespace ActivityTimelineSpec

/-- A `Partial<User>` identity snapshot (source line 50: `TUser = Partial<User>`);
every field may be absent. -/
structure UserModel where
  name : Option String
  email : Option String
  id : Option String
  avatar : Option String
  presence : Option String
deriving Repr, DecidableEq

/-- The `data` payload of an activity.  The source declares one shape per
variant (lines 58-63); as a JavaScript object a record simply has the
fields of its variant and lacks the others, which the flat record of
optional fields captures. -/
structure ActivityData where
  action : Option String
  comment : Option String
  field : Option String
  value : Option String
  oldValue : Option String
deriving Repr, DecidableEq

/-- One feed entry (source lines 50-56).  The `type` tag is a string so
that the unrecognized-tag behaviour of the dispatch switch (lines 82-95)
can be stated. -/
structure ActivityRecord where
  id : String
  user : UserModel
  type : String
  data : ActivityData
  date : Nat
deriving Repr, DecidableEq

/-- JavaScript `a || b` on two possibly-undefined strings: `a` unless it
is absent or empty (falsy), else `b`. -/
def jsOr (a b : Option String) : Option String :=
  match a with
  | some s => if s = "" then b else some s
  | none => b

/-- The `ActivityUser` component (source lines 170-177): renders
`user.name || user.email || user.id`.  Passing JavaScript `undefined`
for `user` (modelled `none`) throws a TypeError when `.name` is read;
an undefined field renders as nothing. -/
def ActivityUser : Option UserModel → Except String String
  | none => .error "TypeError: Cannot read properties of undefined (reading name)"
  | some u => .ok ((jsOr u.name (jsOr u.email u.id)).getD "")

/-- A rendered action or update timeline item: the `id` attribute of its
`ActivityTimelineItem`, the `href` of its `ActivityLink` timestamp, and
its text content. -/
structure RenderedItem where
  anchorId : String
  timestampHref : String
  text : Except String String
deriving Repr

/-- A rendered comment timeline item (source lines 237-293): anchor,
timestamp link target, author line, trusted-HTML body, and whether the
overflow menu offers the Delete action. -/
structure CommentItem where
  anchorId : String
  timestampHref : String
  authorText : Except String String
  bodyHtml : String
  deleteActionOffered : Bool
deriving Repr

/-- The element described by the `ActivityTimelineAction` JSX (source
lines 179-201): the anchor id `action-` ++ id (line 183), the timestamp
link target `#action-` ++ id (line 196), and the text content.  The
renderer destructures `users` from props (line 180) although the props
field is named `user`, so `users` is JavaScript `undefined` (modelled
`none`) and the user portion of the text fails.  Whether the renderer
body ever produces this element is `evalActivityTimelineAction` below:
it does not, because line 186 references the undeclared identifier
`user` first. -/
def ActivityTimelineAction (r : ActivityRecord) : RenderedItem :=
  let users : Option UserModel := none
  { anchorId := "action-" ++ r.id
    timestampHref := "#action-" ++ r.id
    text :=
      match ActivityUser users with
      | .error e => .error e
      | .ok u => .ok (u ++ " created the contact.") }

/-- JavaScript `x && (" from " ++ x)` as rendered by JSX (source line 224):
an absent `oldValue` renders nothing, an empty string is falsy and also
renders nothing, otherwise the clause is appended. -/
def fromClause (oldValue : Option String) : String :=
  match oldValue with
  | none => ""
  | some s => if s = "" then "" else " from " ++ s

/-- The `ActivityTimelineUpdate` renderer (source lines 217-231).
Line 218 destructures `users`, which does not exist on the props (the
field is `user`), so the `ActivityUser` child throws when rendered.
Anchor id `update-` ++ id (line 221), timestamp link `#update-` ++ id
(line 226); the text is
`<user> changed <field> to <value>[ from <oldValue>].` (lines 222-225). -/
def ActivityTimelineUpdate (r : ActivityRecord) : RenderedItem :=
  let users : Option UserModel := none
  { anchorId := "update-" ++ r.id
    timestampHref := "#update-" ++ r.id
    text :=
      match ActivityUser users with
      | .error e => .error e
      | .ok u =>
        .ok (u ++ " changed " ++ r.data.field.getD "" ++ " to " ++
          r.data.value.getD "" ++ fromClause r.data.oldValue ++ ".") }

/-- The element described by the `ActivityTimelineComment` JSX (source
lines 237-293), parameterised by whether an `onDelete` callback was
supplied.  Line 240 destructures `users` (the props field is `user`),
so the author line fails.  Anchor id `comment-` ++ id (line 245); the
timestamp link targets `#action-` ++ id (line 260), not
`#comment-` ++ id.  The Delete menu item (lines 271-284) is written
unconditionally: the presence of `onDelete` is only consulted inside
`onConfirm` via `onDelete?.(id)` (line 278).  Whether the renderer body
ever produces this element is `evalActivityTimelineComment` below: it
does not, because line 249 reads `users.avatar` first. -/
def ActivityTimelineComment (_hasOnDelete : Bool) (r : ActivityRecord) : CommentItem :=
  let users : Option UserModel := none
  { anchorId := "comment-" ++ r.id
    timestampHref := "#action-" ++ r.id
    authorText := ActivityUser users
    bodyHtml := r.data.comment.getD ""
    deleteActionOffered := true }

/-- Reading a property of a possibly-undefined JavaScript object:
throws a TypeError when the object is `undefined`, otherwise yields
the (possibly undefined) property value. -/
def jsGet (obj : Option UserModel) (f : UserModel → Option String)
    (prop : String) : Except String (Option String) :=
  match obj with
  | none =>
    .error ("TypeError: Cannot read properties of undefined (reading "
      ++ prop ++ ")")
  | some u => .ok (f u)

/-- Referencing an identifier that is declared nowhere in scope throws
a ReferenceError. -/
def jsUndeclared (n : String) : Except String (Option String) :=
  .error ("ReferenceError: " ++ n ++ " is not defined")

/-- Invocation of the `ActivityTimelineAction` renderer body.  While the
props of its `ActivityTimelineItem` are being evaluated, the icon
expression reads `user.avatar` (line 186), and `user` is declared
nowhere in the component (line 180 destructured `users`), so the body
throws a ReferenceError and produces no element; the element it would
have produced is `ActivityTimelineAction`. -/
def evalActivityTimelineAction (r : ActivityRecord) :
    Except String RenderedItem := do
  let _src ← jsUndeclared "user"
  return ActivityTimelineAction r

/-- Invocation of the `ActivityTimelineUpdate` renderer body.  Its own
props evaluate without faulting (the `UpdateIcon` receives `data`, which
exists), so the body returns its element; the `users` slip of line 218
sits inside the text child, which fails only when that child is
rendered (see the `text` field of `ActivityTimelineUpdate`). -/
def evalActivityTimelineUpdate (r : ActivityRecord) :
    Except String RenderedItem :=
  .ok (ActivityTimelineUpdate r)

/-- Invocation of the `ActivityTimelineComment` renderer body.  While
the props of its `ActivityTimelineItem` are being evaluated, the icon
expression reads `users.avatar` (line 249) with `users` undefined (line
240 destructured `users` from props whose field is `user`), so the body
throws a TypeError and produces no element; the element it would have
produced is `ActivityTimelineComment`. -/
def evalActivityTimelineComment (hasOnDelete : Bool) (r : ActivityRecord) :
    Except String CommentItem := do
  let users : Option UserModel := none
  let _src ← jsGet users (fun u => u.avatar) "avatar"
  return ActivityTimelineComment hasOnDelete r

/-- Whether an invoked comment renderer offers the delete action: a
body that threw rendered nothing, so it offers nothing. -/
def offersDeleteAction (res : Except String CommentItem) : Bool :=
  match res with
  | .ok item => item.deleteActionOffered
  | .error _ => false

/-- One slot of the rendered feed: a dispatched activity item or the
trailing composer. -/
inductive Slot
  | action (item : RenderedItem)
  | comment (item : CommentItem)
  | update (item : RenderedItem)
  | composer
deriving Repr

/-- Whether a slot is the Comment Composer. -/
def Slot.isComposer : Slot → Bool
  | .composer => true
  | _ => false

/-- The renderer dispatch switch inside `ActivityTimeline` (source
lines 82-95): a `switch` on `activity.type` with cases `action`,
`comment`, `update` and no default, so an unrecognized type produces
`undefined`, which React renders as nothing (`none` here).  The function
is total: dispatch never throws. -/
def dispatch (hasOnDelete : Bool) (r : ActivityRecord) : Option Slot :=
  match r.type with
  | "action" => some (.action (ActivityTimelineAction r))
  | "comment" => some (.comment (ActivityTimelineComment hasOnDelete r))
  | "update" => some (.update (ActivityTimelineUpdate r))
  | _ => none

/-- The `ActivityTimeline` component (source lines 76-105): maps
`activities?.map` over the records (a null or undefined `activities`
contributes no children because of the optional chaining), dispatching
each, and always appends the `ActivityTimelineAddComment` composer slot
as the final child (lines 98-101). -/
def ActivityTimeline (hasOnDelete : Bool)
    (activities : Option (List ActivityRecord)) : List Slot :=
  (match activities with
   | none => []
   | some acts => acts.filterMap (dispatch hasOnDelete)) ++ [Slot.composer]

/-- Dispatch never yields the composer slot. -/
theorem dispatch_ne_composer (hasOnDelete : Bool) (r : ActivityRecord)
    (s : Slot) (h : dispatch hasOnDelete r = some s) : s.isComposer = false := by
  unfold dispatch at h
  split at h <;>
    first
      | (injection h with h; subst h; rfl)
      | exact Option.noConfusion h

/-- C1: for every activities sequence, the rendered feed is the
dispatched activity records followed by the Comment Composer slot, the
composer appears exactly once, and it is the last item. -/
theorem composer_slot_once_and_last (hasOnDelete : Bool)
    (acts : List ActivityRecord) :
    (ActivityTimeline hasOnDelete (some acts)).dropLast
        = acts.filterMap (dispatch hasOnDelete) ∧
      (ActivityTimeline hasOnDelete (some acts)).getLast? = some Slot.composer ∧
      (ActivityTimeline hasOnDelete (some acts)).countP Slot.isComposer = 1 := by
  refine ⟨?_, ?_, ?_⟩
  · simp [ActivityTimeline]
  · simp [ActivityTimeline]
  · have hz : (acts.filterMap (dispatch hasOnDelete)).countP Slot.isComposer = 0 := by
      rw [List.countP_eq_zero]
      intro s hs
      rcases List.mem_filterMap.mp hs with ⟨r, _, hr⟩
      simp [dispatch_ne_composer hasOnDelete r s hr]
    simp [ActivityTimeline, List.countP_append, hz, Slot.isComposer]

/-- C2: an activity record whose `type` is none of `action`, `comment`,
`update` is dispatched to no rendered element; dispatch is a total
function, so it cannot throw. -/
theorem unrecognized_type_renders_nothing (hasOnDelete : Bool)
    (r : ActivityRecord) (ha : r.type ≠ "action") (hc : r.type ≠ "comment")
    (hu : r.type ≠ "update") : dispatch hasOnDelete r = none := by
  unfold dispatch
  split <;> simp_all

/-- C2 witness: a record of type `reaction` renders nothing. -/
theorem unrecognized_type_renders_nothing_witness :
    dispatch true
      { id := "7", user := ⟨some "Ada", none, none, none, none⟩,
        type := "reaction",
        data := ⟨none, none, none, none, none⟩, date := 0 } = none :=
  unrecognized_type_renders_nothing true _ (by decide) (by decide) (by decide)

/-- C10: a null or undefined `activities` input renders only the
Composer slot; the optional chaining `activities?.map` makes the map
contribute nothing rather than throw. -/
theorem null_activities_only_composer (hasOnDelete : Bool) :
    ActivityTimeline hasOnDelete none = [Slot.composer] := rfl

/-- A comment draft: the `Comment` form shape of the source
(lines 295-298): the `comment` text and the staged attachment files. -/
structure Draft where
  comment : String
  files : List String
deriving Repr, DecidableEq

/-- The draft the form holds after `reset()`: no default values are
passed to the `Form`, so resetting clears the comment text and the
staged files. -/
def emptyDraft : Draft := { comment := "", files := [] }

/-- State of one `ActivityTimelineAddComment` composer instance:
the current draft, the draft of the submission in flight (if any), and
the log of `onAddComment` invocations in order. -/
structure ComposerState where
  draft : Draft
  inFlight : Option Draft
  calls : List Draft
deriving Repr, DecidableEq

/-- Events driving the composer: a user-initiated submit, and the
resolution (fulfilment or rejection) of the `onAddComment` promise of
the submission in flight. -/
inductive ComposerEvent
  | submit
  | resolve (res : Except String Unit)

/-- Modelled from the spec: a comment is trivial when it is empty or
consists only of whitespace characters. -/
def isBlankComment (s : String) : Bool :=
  s.data.all Char.isWhitespace

/-- Modelled from the spec: whether a user-initiated submit reaches the
form submit handler of source lines 330-334.  The guard is implemented
by collaborators that are not under `src/`: the `EditorField` component
(`packages/app-features/core/components/editor/editor`, repository code
outside `src/`) supplies the editor validation the spec assumes against
empty or whitespace-only comments, and the `Form`/`SubmitButton`
collaborators serialize submissions so that a second submit while one is
in flight is rejected rather than queued (spec sections 4.4 and 5). -/
def submitAccepted (s : ComposerState) : Bool :=
  s.inFlight.isNone && !isBlankComment s.draft.comment

/-- One step of the composer protocol.  An accepted submit invokes
`onSubmit(data)` exactly once with the current draft (source line 331)
and leaves that submission in flight.  Resolution follows the handler
`async (data) => { await onSubmit(data); formRef.current?.reset() }`
(source lines 330-334): fulfilment runs `reset()`, clearing the draft;
rejection propagates out of the `await`, so `reset()` is never reached
and the draft is left untouched. -/
def composerStep (e : ComposerEvent) (s : ComposerState) : ComposerState :=
  match e with
  | .submit =>
    if submitAccepted s then
      { s with inFlight := some s.draft, calls := s.calls ++ [s.draft] }
    else s
  | .resolve res =>
    match s.inFlight with
    | none => s
    | some _ =>
      match res with
      | .ok _ => { draft := emptyDraft, inFlight := none, calls := s.calls }
      | .error _ => { s with inFlight := none }

/-- C3: when the submission in flight resolves successfully the draft
(comment text and staged attachments) is cleared; when it rejects the
draft is exactly its pre-submission content. -/
theorem submit_resolution_clears_or_preserves_draft (s : ComposerState)
    (d : Draft) (h : s.inFlight = some d) :
    (composerStep (.resolve (.ok ())) s).draft = emptyDraft ∧
      ∀ e : String, (composerStep (.resolve (.error e)) s).draft = s.draft := by
  constructor
  · simp [composerStep, h]
  · intro e
    simp [composerStep, h]

/-- C3 witness: a composer with draft `hello` and one attachment in
flight is cleared by fulfilment and left intact by rejection. -/
theorem submit_resolution_clears_or_preserves_draft_witness :
    (composerStep (.resolve (.ok ()))
        ⟨⟨"hello", ["a.png"]⟩, some ⟨"hello", ["a.png"]⟩, [⟨"hello", ["a.png"]⟩]⟩).draft
      = emptyDraft ∧
    (composerStep (.resolve (.error "network"))
        ⟨⟨"hello", ["a.png"]⟩, some ⟨"hello", ["a.png"]⟩, [⟨"hello", ["a.png"]⟩]⟩).draft
      = ⟨"hello", ["a.png"]⟩ :=
  ⟨(submit_resolution_clears_or_preserves_draft _ _ rfl).1,
    (submit_resolution_clears_or_preserves_draft
      ⟨⟨"hello", ["a.png"]⟩, some ⟨"hello", ["a.png"]⟩, [⟨"hello", ["a.png"]⟩]⟩
      _ rfl).2 "network"⟩

/-- C5: a user-initiated submit of a non-empty draft while no submission
is in flight calls `onAddComment` exactly once with that draft, and a
second submit issued before the first resolves is a no-op, so the call
count stays at one and nothing is queued. -/
theorem submission_single_flight (s : ComposerState)
    (h1 : s.inFlight = none) (h2 : isBlankComment s.draft.comment = false) :
    (composerStep .submit s).calls = s.calls ++ [s.draft] ∧
      composerStep .submit (composerStep .submit s) = composerStep .submit s := by
  have hacc : submitAccepted s = true := by
    simp [submitAccepted, h1, h2]
  have hstep : composerStep .submit s
      = { s with inFlight := some s.draft, calls := s.calls ++ [s.draft] } := by
    simp [composerStep, hacc]
  constructor
  · rw [hstep]
  · rw [hstep]
    simp [composerStep, submitAccepted]

/-- C5 witness: submitting the draft `hello` once records one call;
submitting again before resolution changes nothing. -/
theorem submission_single_flight_witness :
    (composerStep .submit ⟨⟨"hello", []⟩, none, []⟩).calls = [] ++ [⟨"hello", []⟩] ∧
      composerStep .submit (composerStep .submit ⟨⟨"hello", []⟩, none, []⟩)
        = composerStep .submit ⟨⟨"hello", []⟩, none, []⟩ :=
  submission_single_flight ⟨⟨"hello", []⟩, none, []⟩ rfl (by decide)

/-- C7: a submit with an empty or whitespace-only comment does not fire:
the composer state is unchanged and `onAddComment` is not invoked. -/
theorem empty_draft_submit_noop (s : ComposerState)
    (h : isBlankComment s.draft.comment = true) : composerStep .submit s = s := by
  have hacc : submitAccepted s = false := by
    simp [submitAccepted, h]
  simp [composerStep, hacc]

/-- C7 witness: a whitespace-only draft submit is a no-op. -/
theorem empty_draft_submit_noop_witness :
    composerStep .submit ⟨⟨"   ", ["f.png"]⟩, none, []⟩
      = ⟨⟨"   ", ["f.png"]⟩, none, []⟩ :=
  empty_draft_submit_noop _ (by decide)

/-- Mode of one comment's deletion flow: idle, or awaiting confirmation
for the targeted comment id. -/
inductive DelMode
  | idle
  | confirming (id : String)
deriving Repr, DecidableEq

/-- State of the deletion flow: the current mode and the log of
`onDeleteComment` invocations, each recorded with the id it was passed. -/
structure DelState where
  mode : DelMode
  calls : List String
deriving Repr, DecidableEq

/-- Events of the deletion flow: the user selects Delete on the comment
with the given id, confirms the prompt, or dismisses it. -/
inductive DelEvent
  | request (id : String)
  | confirm
  | cancel

/-- One step of the comment deletion flow of source lines 271-285,
parameterised by whether the optional `onDelete` callback was supplied.
Selecting Delete runs the `MenuItem` `onClick`, which only opens the
confirmation dialog via `modals.confirm` (lines 273-280) and invokes no
callback.  Confirming runs `onConfirm: () => onDelete?.(id)` (line 278):
the optional call invokes `onDelete` with the targeted comment id when
the callback is present and does nothing when it is absent.  Dismissing
the dialog closes it without invoking anything. -/
def delStep (hasOnDelete : Bool) (e : DelEvent) (s : DelState) : DelState :=
  match e with
  | .request i => { mode := .confirming i, calls := s.calls }
  | .confirm =>
    match s.mode with
    | .confirming i =>
      { mode := .idle, calls := s.calls ++ (if hasOnDelete then [i] else []) }
    | .idle => s
  | .cancel => { mode := .idle, calls := s.calls }

/-- C4: selecting the delete action alone never invokes
`onDeleteComment`; confirming the prompt invokes it exactly once with
the id of the targeted comment; cancelling the prompt invokes nothing. -/
theorem delete_requires_confirmation (i : String) (s : DelState) :
    (delStep true (.request i) s).calls = s.calls ∧
      (s.mode = .confirming i →
        (delStep true .confirm s).calls = s.calls ++ [i]) ∧
      (delStep true .cancel s).calls = s.calls := by
  refine ⟨rfl, ?_, rfl⟩
  intro h
  simp [delStep, h]

/-- C4 witness: for the comment with id `42`, requesting deletion and
cancelling record no call, while confirming records exactly the call
with id `42`. -/
theorem delete_requires_confirmation_witness :
    (delStep true (.request "42") ⟨.confirming "42", []⟩).calls = [] ∧
      (delStep true .confirm ⟨.confirming "42", []⟩).calls = [] ++ ["42"] ∧
      (delStep true .cancel ⟨.confirming "42", []⟩).calls = [] :=
  ⟨(delete_requires_confirmation "42" ⟨.confirming "42", []⟩).1,
    (delete_requires_confirmation "42" ⟨.confirming "42", []⟩).2.1 rfl,
    (delete_requires_confirmation "42" ⟨.confirming "42", []⟩).2.2⟩

/-- C8: when `onDeleteComment` is not supplied, no delete action is
offered on any comment item in the rendered feed.  The property holds,
though vacuously: the comment renderer body throws at `users.avatar`
(line 249) before the overflow menu is built, so no comment item — and
hence no delete action — is ever rendered.  The Delete `MenuItem`
itself (lines 272-283) is written unconditionally, so the renderer
contains no conditional gate on the callback; only the throw keeps the
claim true. -/
theorem no_delete_action_without_callback (r : ActivityRecord) :
    offersDeleteAction (evalActivityTimelineComment false r) = false :=
  rfl

/-- C6: evaluation of the update renderer at the record of the spec's
own example.  The rendered text is not
`Ada changed title to Acme from Old Co.`: because the renderer
destructures `users` (source line 218) while the props field is named
`user`, the `ActivityUser` child reads `.name` of `undefined` and the
render throws instead of producing the text. -/
theorem update_renderer_user_typo :
    (ActivityTimelineUpdate
        { id := "1", user := ⟨some "Ada", none, none, none, none⟩,
          type := "update",
          data := ⟨none, none, some "title", some "Acme", some "Old Co"⟩,
          date := 0 }).text
      = .error "TypeError: Cannot read properties of undefined (reading name)" :=
  rfl

/-- C9: evaluation of the renderer bodies at concrete records of each
kind.  The action renderer throws a ReferenceError (undeclared `user`,
line 186) and the comment renderer a TypeError (`users.avatar` with
`users` undefined, line 249) while evaluating their own props, so
neither exposes any anchor or timestamp link; only the update renderer
returns its element, whose anchor id is `update-` ++ id and whose
timestamp link targets `#update-` ++ id, as the claim says.  The anchor
expressions for all three kinds (lines 183/196, 221/226, 245/260) match
the claim verbatim; the `users`/`user` destructuring slip is what keeps
the action and comment items from ever exposing them. -/
theorem renderers_throw_before_exposing_anchor :
    evalActivityTimelineAction
        { id := "a1", user := ⟨some "Ada", none, none, none, none⟩,
          type := "action",
          data := ⟨some "created", none, none, none, none⟩, date := 0 }
      = .error "ReferenceError: user is not defined" ∧
    evalActivityTimelineComment true
        { id := "c1", user := ⟨some "Ada", none, none, none, none⟩,
          type := "comment",
          data := ⟨none, some "hi", none, none, none⟩, date := 0 }
      = .error "TypeError: Cannot read properties of undefined (reading avatar)" ∧
    evalActivityTimelineUpdate
        { id := "u1", user := ⟨some "Ada", none, none, none, none⟩,
          type := "update",
          data := ⟨none, none, some "title", some "Acme", none⟩, date := 0 }
      = .ok (ActivityTimelineUpdate
        { id := "u1", user := ⟨some "Ada", none, none, none, none⟩,
          type := "update",
          data := ⟨none, none, some "title", some "Acme", none⟩, date := 0 }) ∧
    (ActivityTimelineUpdate
        { id := "u1", user := ⟨some "Ada", none, none, none, none⟩,
          type := "update",
          data := ⟨none, none, some "title", some "Acme", none⟩,
          date := 0 }).anchorId = "update-" ++ "u1" ∧
    (ActivityTimelineUpdate
        { id := "u1", user := ⟨some "Ada", none, none, none, none⟩,
          type := "update",
          data := ⟨none, none, some "title", some "Acme", none⟩,
          date := 0 }).timestampHref = "#update-" ++ "u1" :=
  ⟨rfl, rfl, rfl, rfl, rfl⟩

end ActivityTimelineSpec
